import Mathlib

/- Shallow embedding of the ExerciseDB MCP server (src/server.py): the cached
fetch helper make_api_request, the text formatters, and the exercise-selection
pipelines of the workout builder tools, together with proofs of the specified
properties. Network effects are modelled by passing the outcome of each
upstream request explicitly; the module-level cache is explicit state. -/

/-- ASCII lowercasing of one character, mirroring Python str.lower on ASCII. -/
def charLower (c : Char) : Char :=
  if 65 ≤ c.toNat ∧ c.toNat ≤ 90 then Char.ofNat (c.toNat + 32) else c

/-- ASCII uppercasing of one character, mirroring Python str.upper on ASCII. -/
def charUpper (c : Char) : Char :=
  if 97 ≤ c.toNat ∧ c.toNat ≤ 122 then Char.ofNat (c.toNat - 32) else c

/-- ASCII letter test. -/
def charIsAlpha (c : Char) : Bool :=
  decide ((65 ≤ c.toNat ∧ c.toNat ≤ 90) ∨ (97 ≤ c.toNat ∧ c.toNat ≤ 122))

/-- Python s.lower(). -/
def pyLower (s : String) : String := String.mk (s.data.map charLower)

/-- Worker for pyTitle: the Bool records whether the previous character was a letter. -/
def pyTitleAux : Bool → List Char → List Char
  | _, [] => []
  | prevAlpha, c :: cs =>
    (if charIsAlpha c then (if prevAlpha then charLower c else charUpper c) else c)
      :: pyTitleAux (charIsAlpha c) cs

/-- Python s.title() over ASCII letters. -/
def pyTitle (s : String) : String := String.mk (pyTitleAux false s.data)

/-- Whether the first list is an initial segment of the second. -/
def isLeadOf [DecidableEq α] : List α → List α → Bool
  | [], _ => true
  | _ :: _, [] => false
  | a :: l1, b :: l2 => if a = b then isLeadOf l1 l2 else false

/-- Whether the first list occurs contiguously inside the second. -/
def isPartOf [DecidableEq α] : List α → List α → Bool
  | l1, [] => isLeadOf l1 []
  | l1, b :: l2 => isLeadOf l1 (b :: l2) || isPartOf l1 l2

/-- Python substring membership: needle in hay. -/
def pyIn (needle hay : String) : Bool := isPartOf needle.data hay.data

/-- Python s.replace(" ", "%20"), as used when building equipment endpoints. -/
def encodeSpaces (s : String) : String :=
  String.mk (s.data.flatMap (fun c => if c = ' ' then ['%', '2', '0'] else [c]))

/-- One upstream exercise record. A JSON key that may be absent is an Option
field (absent = none); list-valued keys default to the empty list. -/
structure Exercise where
  id : Option String := none
  name : Option String := none
  bodyPart : Option String := none
  target : Option String := none
  secondaryMuscles : List String := []
  equipment : Option String := none
  instructions : List String := []
  gifUrl : Option String := none
  category : Option String := none
  difficulty : Option String := none
deriving DecidableEq

/-- The equipment test every builder applies to a record:
equipment.lower() in ex.get("equipment", "").lower(). -/
def matchesEquip (equipment : String) (ex : Exercise) : Bool :=
  pyIn (pyLower equipment) (pyLower (ex.equipment.getD ""))

/-- The guard equipment.lower() in ["any", "all"]. -/
def equipIsAnyOrAll (equipment : String) : Prop :=
  pyLower equipment = "any" ∨ pyLower equipment = "all"

instance (equipment : String) : Decidable (equipIsAnyOrAll equipment) :=
  inferInstanceAs (Decidable (_ ∨ _))

/-- The filtering step repeated in every builder: when the equipment argument
is not any/all, keep the records whose equipment field contains it. -/
def filterEquipment (equipment : String) (data : List Exercise) : List Exercise :=
  if equipIsAnyOrAll equipment then data else data.filter (matchesEquip equipment)

/-- Shared per-endpoint step of the builders: fetch the endpoint and, when the
result is truthy, filter by equipment and slice to the first k records. -/
def fetchFiltered (fetch : String → Option (List Exercise)) (equipment endpoint : String)
    (k : Nat) : List Exercise :=
  match fetch endpoint with
  | none => []
  | some data => if data = [] then [] else (filterEquipment equipment data).take k

/-- Endpoint f"/exercises/bodyPart/{part}". -/
def bodyPartEndpoint (body_part : String) : String := "/exercises/bodyPart/" ++ body_part

/-- Endpoint f"/exercises/equipment/{equipment.lower().replace(" ", "%20")}". -/
def equipmentEndpoint (equipment : String) : String :=
  "/exercises/equipment/" ++ encodeSpaces (pyLower equipment)

/-- The dedup loop with break used by create_personalized_workout,
create_circuit_training, get_workout_by_difficulty and create_hiit_workout;
seen ids are kept as a list, output is accumulated in reverse. -/
def dedupAux (count : Nat) (seen : List (Option String)) (acc : List Exercise) :
    List Exercise → List Exercise
  | [] => acc.reverse
  | ex :: rest =>
    if ex.id ∈ seen then dedupAux count seen acc rest
    else if acc.length + 1 ≥ count then (ex :: acc).reverse
    else dedupAux count (ex.id :: seen) (ex :: acc) rest

/-- Remove duplicates and limit to the desired count. -/
def dedupLimit (count : Nat) (exercises : List Exercise) : List Exercise :=
  dedupAux count [] [] exercises

/-- The dedup loop of get_beginner_workout_plan, which has no break. -/
def dedupAllAux (seen : List (Option String)) (acc : List Exercise) :
    List Exercise → List Exercise
  | [] => acc.reverse
  | ex :: rest =>
    if ex.id ∈ seen then dedupAllAux seen acc rest
    else dedupAllAux (ex.id :: seen) (ex :: acc) rest

/-- Remove duplicates without any bound. -/
def dedupNoLimit (exercises : List Exercise) : List Exercise := dedupAllAux [] [] exercises

/-- The body_parts list used by the full-body branches. -/
def body_parts : List String := ["chest", "back", "upper legs", "shoulders", "upper arms", "waist"]

/-- The upper_parts list used by the upper-body branches. -/
def upper_parts : List String := ["chest", "back", "shoulders", "upper arms"]

/-- The lower_parts list used by the lower-body branches. -/
def lower_parts : List String := ["upper legs", "lower legs"]

/-- A for-loop over body parts, each contributing its fetched, filtered and
sliced records in order. -/
def partsContribution (fetch : String → Option (List Exercise)) (equipment : String)
    (parts : List String) (k : Nat) : List Exercise :=
  (parts.map (fun bp => fetchFiltered fetch equipment (bodyPartEndpoint bp) k)).flatten

/-- Exercise count chosen by create_personalized_workout from duration and
fitness level. -/
def exercise_count_for (duration_minutes : Nat) (fitness_level : String) : Nat :=
  let base := if duration_minutes ≤ 20 then 4 else if duration_minutes ≤ 40 then 6 else 8
  if pyLower fitness_level = "beginner" then max 3 (base - 1)
  else if pyLower fitness_level = "advanced" then min 12 (base + 2)
  else base

/-- The combined_data list of the leg branch of create_personalized_workout:
upper legs then lower legs, each only when truthy. -/
def legCombinedData (fetch : String → Option (List Exercise)) : List Exercise :=
  ((fetch (bodyPartEndpoint "upper legs")).getD [])
    ++ ((fetch (bodyPartEndpoint "lower legs")).getD [])

/-- The body-part phase of create_personalized_workout: everything before the
equipment fallback and the dedup loop. -/
def personalized_workout_exercises (fetch : String → Option (List Exercise))
    (workout_type equipment : String) (exercise_count : Nat) : List Exercise :=
  let wt := pyLower workout_type
  if pyIn "chest" wt then
    fetchFiltered fetch equipment (bodyPartEndpoint "chest") exercise_count
  else if pyIn "full body" wt || pyIn "full-body" wt then
    partsContribution fetch equipment body_parts (max 1 (exercise_count / body_parts.length))
  else if pyIn "leg" wt || pyIn "lower body" wt then
    if legCombinedData fetch = [] then []
    else (filterEquipment equipment (legCombinedData fetch)).take exercise_count
  else if pyIn "upper body" wt then
    partsContribution fetch equipment upper_parts (max 1 (exercise_count / upper_parts.length))
  else if pyIn "cardio" wt || pyIn "hiit" wt then
    fetchFiltered fetch equipment (bodyPartEndpoint "cardio") exercise_count
  else
    fetchFiltered fetch equipment (bodyPartEndpoint wt) exercise_count

/-- The equipment-endpoint fallback of create_personalized_workout: when the
body-part phase selected nothing and equipment is specific, fetched records
are appended with no equipment filter. -/
def personalized_with_fallback (fetch : String → Option (List Exercise))
    (workout_type equipment : String) (exercise_count : Nat) : List Exercise :=
  if personalized_workout_exercises fetch workout_type equipment exercise_count = []
      ∧ ¬ equipIsAnyOrAll equipment then
    personalized_workout_exercises fetch workout_type equipment exercise_count
      ++ (match fetch (equipmentEndpoint equipment) with
          | none => []
          | some data => if data = [] then [] else data.take exercise_count)
  else personalized_workout_exercises fetch workout_type equipment exercise_count

/-- The exercise selection computed by create_personalized_workout: body-part
phase, fallback, then the dedup loop with break. -/
def create_personalized_workout_selection (fetch : String → Option (List Exercise))
    (workout_type equipment : String) (duration_minutes : Nat) (fitness_level : String) :
    List Exercise :=
  dedupLimit (exercise_count_for duration_minutes fitness_level)
    (personalized_with_fallback fetch workout_type equipment
      (exercise_count_for duration_minutes fitness_level))

/-- The pre-dedup exercises gathered by create_circuit_training. -/
def create_circuit_training_exercises (fetch : String → Option (List Exercise))
    (target_areas equipment : String) (exercises_per_round : Nat) : List Exercise :=
  let ta := pyLower target_areas
  if pyIn "full body" ta then
    partsContribution fetch equipment body_parts (max 1 (exercises_per_round / body_parts.length))
  else if pyIn "upper body" ta then
    partsContribution fetch equipment upper_parts (max 1 (exercises_per_round / upper_parts.length))
  else if pyIn "lower body" ta then
    partsContribution fetch equipment lower_parts (max 1 (exercises_per_round / lower_parts.length))
  else if pyIn "core" ta || pyIn "abs" ta then
    fetchFiltered fetch equipment (bodyPartEndpoint "waist") exercises_per_round
  else if pyIn "cardio" ta then
    fetchFiltered fetch equipment (bodyPartEndpoint "cardio") exercises_per_round
  else []

/-- The exercise selection computed by create_circuit_training. -/
def create_circuit_training_selection (fetch : String → Option (List Exercise))
    (target_areas equipment : String) (exercises_per_round : Nat) : List Exercise :=
  dedupLimit exercises_per_round
    (create_circuit_training_exercises fetch target_areas equipment exercises_per_round)

/-- The pre-dedup exercises gathered by get_beginner_workout_plan. -/
def get_beginner_workout_plan_exercises (fetch : String → Option (List Exercise))
    (focus_area equipment : String) : List Exercise :=
  let fa := pyLower focus_area
  if pyIn "full body" fa then partsContribution fetch equipment (body_parts.take 4) 2
  else if pyIn "upper body" fa then partsContribution fetch equipment upper_parts 2
  else if pyIn "lower body" fa then partsContribution fetch equipment lower_parts 3
  else if pyIn "core" fa then fetchFiltered fetch equipment (bodyPartEndpoint "waist") 6
  else []

/-- The exercise selection computed by get_beginner_workout_plan: its dedup
loop has no count bound. -/
def get_beginner_workout_plan_selection (fetch : String → Option (List Exercise))
    (focus_area equipment : String) : List Exercise :=
  dedupNoLimit (get_beginner_workout_plan_exercises fetch focus_area equipment)

/-- Exercise count chosen by get_workout_by_difficulty from the difficulty. -/
def difficulty_exercise_count (difficulty : String) : Nat :=
  if pyLower difficulty = "beginner" then 5
  else if pyLower difficulty = "intermediate" then 7
  else 9

/-- The pre-dedup exercises gathered by get_workout_by_difficulty. -/
def get_workout_by_difficulty_exercises (fetch : String → Option (List Exercise))
    (difficulty body_focus equipment : String) : List Exercise :=
  let exercise_count := difficulty_exercise_count difficulty
  if pyIn "full body" (pyLower body_focus) then
    partsContribution fetch equipment body_parts (max 1 (exercise_count / body_parts.length))
  else fetchFiltered fetch equipment (bodyPartEndpoint (pyLower body_focus)) exercise_count

/-- The exercise selection computed by get_workout_by_difficulty. -/
def get_workout_by_difficulty_selection (fetch : String → Option (List Exercise))
    (difficulty body_focus equipment : String) : List Exercise :=
  dedupLimit (difficulty_exercise_count difficulty)
    (get_workout_by_difficulty_exercises fetch difficulty body_focus equipment)

/-- The body parts create_hiit_workout draws compound exercises from. -/
def hiit_parts : List String := ["chest", "back", "upper legs", "shoulders"]

/-- The pre-dedup exercises gathered by create_hiit_workout: up to three
filtered cardio records, then two records per compound body part. -/
def create_hiit_workout_exercises (fetch : String → Option (List Exercise))
    (equipment : String) : List Exercise :=
  fetchFiltered fetch equipment (bodyPartEndpoint "cardio") 3
    ++ partsContribution fetch equipment hiit_parts 2

/-- The exercise selection computed by create_hiit_workout (limit 6). -/
def create_hiit_workout_selection (fetch : String → Option (List Exercise))
    (equipment : String) : List Exercise :=
  dedupLimit 6 (create_hiit_workout_exercises fetch equipment)

/-- Outcome of the single httpx GET performed inside make_api_request: a parsed
JSON payload, a raise_for_status error with its code, or any other exception. -/
inductive NetOutcome (α : Type) where
  | success : α → NetOutcome α
  | statusError : Nat → NetOutcome α
  | exnError : NetOutcome α
deriving DecidableEq

/-- Python dict lookup over an association list (later dictSet entries shadow
earlier ones). -/
def dictGet {α : Type} (k : String) : List (String × α) → Option α
  | [] => none
  | (k2, v) :: rest => if k2 = k then some v else dictGet k rest

/-- Python dict assignment: the new binding shadows any earlier one. -/
def dictSet {α : Type} (k : String) (v : α) (m : List (String × α)) : List (String × α) :=
  (k, v) :: m

/-- Insertion step of the key sort performed by json.dumps(..., sort_keys=True). -/
def insertByKey (kv : String × String) : List (String × String) → List (String × String)
  | [] => [kv]
  | h :: t => if kv.1 ≤ h.1 then kv :: h :: t else h :: insertByKey kv t

/-- Sort a parameter list by key. -/
def sortByKey : List (String × String) → List (String × String)
  | [] => []
  | h :: t => insertByKey h (sortByKey t)

/-- json.dumps(params or \x7b\x7d, sort_keys=True) for a flat string-valued object. -/
def serializeParams (params : List (String × String)) : String :=
  "\x7b" ++ String.intercalate ", "
    ((sortByKey params).map (fun kv => "\"" ++ kv.1 ++ "\": \"" ++ kv.2 ++ "\"")) ++ "\x7d"

/-- The cache key f"\x7bendpoint\x7d_\x7bjson.dumps(params or \x7b\x7d, sort_keys=True)\x7d". -/
def cacheKey (endpoint : String) (params : List (String × String)) : String :=
  endpoint ++ "_" ++ serializeParams params

/-- make_api_request as a function of the network outcome of its single GET,
returning the payload (none on failure) and the updated module-level cache. -/
def make_api_request {α : Type} (net : NetOutcome α) (endpoint : String)
    (params : List (String × String)) (use_cache : Bool) (cache : List (String × α)) :
    Option α × List (String × α) :=
  let cache_key := cacheKey endpoint params
  if use_cache && (dictGet cache_key cache).isSome then (dictGet cache_key cache, cache)
  else
    match net with
    | NetOutcome.success data => (some data, if use_cache then dictSet cache_key data cache else cache)
    | NetOutcome.statusError _ => (none, cache)
    | NetOutcome.exnError => (none, cache)

/-- Python enumerate(xs, n). -/
def pyEnumerate {α : Type} (n : Nat) : List α → List (Nat × α)
  | [] => []
  | a :: as => (n, a) :: pyEnumerate (n + 1) as

/-- The instructions snippet of a format_exercise_list entry: first instruction,
cut to 100 characters with an ellipsis, or a fixed fallback. -/
def formatInstructionSnippet (instructions : List String) : String :=
  match instructions with
  | [] => "No instructions available"
  | instr :: _ => if 100 < instr.length then instr.take 100 ++ "..." else instr

/-- One numbered entry of format_exercise_list. -/
def exerciseEntry (show_gif : Bool) (i : Nat) (ex : Exercise) : String :=
  let gif_section :=
    if show_gif && !(ex.gifUrl.getD "" == "") then
      "\n- **Visual Guide (GIF):** " ++ ex.gifUrl.getD ""
    else ""
  ("\n**" ++ toString i ++ ". " ++ ex.name.getD "Unknown Exercise"
    ++ "**\n- **ID:** " ++ ex.id.getD "N/A"
    ++ "\n- **Body Part:** " ++ pyTitle (ex.bodyPart.getD "N/A")
    ++ "\n- **Target Muscle:** " ++ pyTitle (ex.target.getD "N/A")
    ++ "\n- **Equipment:** " ++ pyTitle (ex.equipment.getD "N/A")
    ++ "\n- **Instructions:** " ++ formatInstructionSnippet ex.instructions
    ++ gif_section ++ "\n").trim

/-- The stripped numbered entries rendered by format_exercise_list. -/
def formatEntriesFor (exercises : List Exercise) (limit : Nat) (show_gif : Bool) :
    List String :=
  (pyEnumerate 1 (exercises.take limit)).map (fun p => exerciseEntry show_gif p.1 p.2)

/-- Suffix appended when more exercises exist than the display limit. -/
def moreSuffix (n : Nat) : String :=
  "\n\n... and " ++ toString n
    ++ " more exercises available. Use specific filters to narrow down results."

/-- format_exercise_list from server.py. -/
def format_exercise_list (exercises : List Exercise) (limit : Nat) (show_gif : Bool) :
    String :=
  if exercises = [] then "No exercises found."
  else
    let result := String.intercalate "\n\n" (formatEntriesFor exercises limit show_gif)
    if exercises.length > limit then result ++ moreSuffix (exercises.length - limit)
    else result

/-- format_exercise_detail from server.py; none stands for a falsy record. -/
def format_exercise_detail (exercise : Option Exercise) : String :=
  match exercise with
  | none => "Exercise not found."
  | some ex =>
    let instructions_text := String.intercalate "\n"
      ((pyEnumerate 1 ex.instructions).map (fun p => toString p.1 ++ ". " ++ p.2))
    let secondary_text :=
      if ex.secondaryMuscles = [] then "None"
      else String.intercalate ", " (ex.secondaryMuscles.map pyTitle)
    let gif_section :=
      if ex.gifUrl.getD "" == "" then ""
      else "\n**🎬 Exercise Demonstration (GIF):** " ++ ex.gifUrl.getD ""
    "\n**" ++ ex.name.getD "Unknown Exercise"
      ++ "**\n\n**📋 Basic Information:**\n- **ID:** " ++ ex.id.getD "N/A"
      ++ "\n- **Body Part:** " ++ pyTitle (ex.bodyPart.getD "N/A")
      ++ "\n- **Primary Target:** " ++ pyTitle (ex.target.getD "N/A")
      ++ "\n- **Secondary Muscles:** " ++ secondary_text
      ++ "\n- **Equipment:** " ++ pyTitle (ex.equipment.getD "N/A")
      ++ "\n\n**📝 Step-by-Step Instructions:**\n"
      ++ (if instructions_text = "" then "No detailed instructions available"
          else instructions_text)
      ++ "\n" ++ gif_section
      ++ "\n\n**ℹ️ Additional Information:**\n- **Category:** " ++ ex.category.getD "N/A"
      ++ "\n- **Difficulty:** " ++ ex.difficulty.getD "N/A" ++ "\n"

/-- Suggested sets/reps chosen by format_workout_plan from the record. -/
def setsRepsFor (ex : Exercise) : String :=
  if pyIn "cardio" (pyLower (ex.bodyPart.getD "")) then "3 sets of 30-45 seconds"
  else if pyIn "abs" (pyLower (ex.target.getD "")) || pyIn "core" (pyLower (ex.target.getD ""))
    then "3 sets of 12-20 reps"
  else "3 sets of 8-12 reps"

/-- One numbered exercise block of format_workout_plan. -/
def workoutPlanEntry (i : Nat) (ex : Exercise) : String :=
  let main_instruction :=
    match ex.instructions with
    | [] => "Follow proper form and controlled movement"
    | instr :: _ => instr
  let gif_section :=
    if ex.gifUrl.getD "" == "" then ""
    else "\n- **🎬 Exercise Demo:** " ++ ex.gifUrl.getD ""
  "\n### Exercise " ++ toString i ++ ": " ++ ex.name.getD "Unknown Exercise"
    ++ "\n- **🎯 Target:** " ++ pyTitle (ex.target.getD "N/A")
    ++ "\n- **🛠️ Equipment:** " ++ pyTitle (ex.equipment.getD "N/A")
    ++ "\n- **📝 Key Instruction:** " ++ main_instruction
    ++ "\n- **📊 Sets/Reps:** " ++ setsRepsFor ex
    ++ "\n- **⏰ Rest:** 60-90 seconds between sets" ++ gif_section ++ "\n\n"

/-- The fixed guidelines block appended by format_workout_plan. -/
def workoutGuidelines : String :=
  "\n## 💡 Workout Guidelines:\n- **Warm-up:** 5-10 minutes of light cardio and dynamic stretching\n- **Form Focus:** Quality over quantity - maintain proper form throughout\n- **Progressive Overload:** Gradually increase intensity as you get stronger\n- **Rest Periods:** Allow adequate rest between exercises and sets\n- **Cool-down:** 5-10 minutes of stretching and breathing exercises\n- **Hydration:** Keep water nearby and stay hydrated\n- **Listen to Your Body:** Stop if you feel pain or excessive fatigue\n\n## 🎬 Visual Guides:\nAll exercises include animated GIF demonstrations to help you maintain proper form and technique.\n"

/-- format_workout_plan from server.py. -/
def format_workout_plan (exercises : List Exercise) (workout_type : String)
    (equipment : String) (duration : Nat) : String :=
  if exercises = [] then "No exercises found for this workout plan."
  else
    "\n# 🏋️ " ++ pyTitle workout_type ++ " Workout Plan\n\n**⏱️ Duration:** ~"
      ++ toString duration ++ " minutes\n**🛠️ Equipment:** " ++ pyTitle equipment
      ++ "\n**💪 Total Exercises:** " ++ toString exercises.length
      ++ "\n\n## 🎯 Workout Structure\n\n"
      ++ String.join ((pyEnumerate 1 exercises).map (fun p => workoutPlanEntry p.1 p.2))
      ++ workoutGuidelines

/-- get_exercise_by_id, with the payload fetched for
f"/exercises/exercise/\x7bexercise_id\x7d" passed explicitly (none = falsy). -/
def get_exercise_by_id (data : Option Exercise) (exercise_id : String) : String :=
  match data with
  | none => "❌ Unable to fetch exercise with ID: " ++ exercise_id
      ++ ". Please verify the ID is correct."
  | some ex => format_exercise_detail (some ex)

/-- A chest record that needs a barbell. -/
def exBarbell : Exercise :=
  { id := some "0025", name := some "barbell bench press", bodyPart := some "chest",
    target := some "pectorals", equipment := some "barbell" }

/-- A chest record that needs a dumbbell. -/
def exDumbbell : Exercise :=
  { id := some "0030", name := some "dumbbell fly", bodyPart := some "chest",
    target := some "pectorals", equipment := some "dumbbell" }

/-- A record with no id key. -/
def exNoId1 : Exercise := { name := some "mystery one" }

/-- Another distinct record with no id key. -/
def exNoId2 : Exercise := { name := some "mystery two" }

/-- Two distinct records sharing the identifier 0007. -/
def exDupA : Exercise := { id := some "0007", name := some "first seven" }

/-- See exDupA. -/
def exDupB : Exercise := { id := some "0007", name := some "second seven" }

/-- An upstream that only answers the dumbbell equipment endpoint, and answers
it with a barbell record. -/
def fetchFallbackOnly : String → Option (List Exercise) := fun ep =>
  if ep = equipmentEndpoint "dumbbell" then some [exBarbell] else none

/-- An upstream that only answers the chest body-part endpoint. -/
def fetchChestOnly : String → Option (List Exercise) := fun ep =>
  if ep = bodyPartEndpoint "chest" then some [exDumbbell, exBarbell] else none

theorem dedupAux_sublist (count : Nat) (l : List Exercise) :
    ∀ (seen : List (Option String)) (acc : List Exercise),
      List.Sublist (dedupAux count seen acc l) (acc.reverse ++ l) := by
  induction l with
  | nil => intro seen acc; simp [dedupAux]
  | cons ex rest ih =>
    intro seen acc
    simp only [dedupAux]
    by_cases hmem : ex.id ∈ seen
    · rw [if_pos hmem]
      exact (ih seen acc).trans
        (List.Sublist.append_left (List.sublist_cons_self ex rest) acc.reverse)
    · rw [if_neg hmem]
      by_cases hlen : acc.length + 1 ≥ count
      · rw [if_pos hlen, List.reverse_cons]
        exact List.Sublist.append_left
          ((List.singleton_sublist.mpr (List.mem_cons_self ex rest))) acc.reverse
      · rw [if_neg hlen]
        have h := ih (ex.id :: seen) (ex :: acc)
        rw [List.reverse_cons, List.append_assoc] at h
        simpa using h

theorem dedupLimit_sublist (count : Nat) (xs : List Exercise) :
    List.Sublist (dedupLimit count xs) xs := by
  simpa [dedupLimit] using dedupAux_sublist count xs [] []

theorem dedupAllAux_sublist (l : List Exercise) :
    ∀ (seen : List (Option String)) (acc : List Exercise),
      List.Sublist (dedupAllAux seen acc l) (acc.reverse ++ l) := by
  induction l with
  | nil => intro seen acc; simp [dedupAllAux]
  | cons ex rest ih =>
    intro seen acc
    simp only [dedupAllAux]
    by_cases hmem : ex.id ∈ seen
    · rw [if_pos hmem]
      exact (ih seen acc).trans
        (List.Sublist.append_left (List.sublist_cons_self ex rest) acc.reverse)
    · rw [if_neg hmem]
      have h := ih (ex.id :: seen) (ex :: acc)
      rw [List.reverse_cons, List.append_assoc] at h
      simpa using h

theorem dedupNoLimit_sublist (xs : List Exercise) : List.Sublist (dedupNoLimit xs) xs := by
  simpa [dedupNoLimit] using dedupAllAux_sublist xs [] []

theorem dedupAux_ids_nodup (count : Nat) (l : List Exercise) :
    ∀ (seen : List (Option String)) (acc : List Exercise),
      (∀ a ∈ acc, a.id ∈ seen) → (acc.map (fun e => e.id)).Nodup →
      ((dedupAux count seen acc l).map (fun e => e.id)).Nodup := by
  induction l with
  | nil =>
    intro seen acc _ hnd
    simpa [dedupAux, List.map_reverse] using hnd
  | cons ex rest ih =>
    intro seen acc hsub hnd
    simp only [dedupAux]
    by_cases hmem : ex.id ∈ seen
    · rw [if_pos hmem]
      exact ih seen acc hsub hnd
    · rw [if_neg hmem]
      have hnotacc : ex.id ∉ acc.map (fun e => e.id) := by
        intro hin
        rcases List.mem_map.mp hin with ⟨a, ha, hid⟩
        exact hmem (hid ▸ hsub a ha)
      by_cases hlen : acc.length + 1 ≥ count
      · rw [if_pos hlen]
        rw [List.map_reverse, List.nodup_reverse, List.map_cons]
        exact List.Nodup.cons hnotacc hnd
      · rw [if_neg hlen]
        refine ih (ex.id :: seen) (ex :: acc) ?_ ?_
        · intro a ha
          rcases List.mem_cons.mp ha with h | h
          · exact h ▸ List.mem_cons_self _ _
          · exact List.mem_cons_of_mem _ (hsub a h)
        · exact List.Nodup.cons hnotacc hnd

theorem dedupLimit_ids_nodup (count : Nat) (xs : List Exercise) :
    ((dedupLimit count xs).map (fun e => e.id)).Nodup :=
  dedupAux_ids_nodup count xs [] [] (by simp) (by simp)

theorem dedupAllAux_ids_nodup (l : List Exercise) :
    ∀ (seen : List (Option String)) (acc : List Exercise),
      (∀ a ∈ acc, a.id ∈ seen) → (acc.map (fun e => e.id)).Nodup →
      ((dedupAllAux seen acc l).map (fun e => e.id)).Nodup := by
  induction l with
  | nil =>
    intro seen acc _ hnd
    simpa [dedupAllAux, List.map_reverse] using hnd
  | cons ex rest ih =>
    intro seen acc hsub hnd
    simp only [dedupAllAux]
    by_cases hmem : ex.id ∈ seen
    · rw [if_pos hmem]
      exact ih seen acc hsub hnd
    · rw [if_neg hmem]
      have hnotacc : ex.id ∉ acc.map (fun e => e.id) := by
        intro hin
        rcases List.mem_map.mp hin with ⟨a, ha, hid⟩
        exact hmem (hid ▸ hsub a ha)
      refine ih (ex.id :: seen) (ex :: acc) ?_ ?_
      · intro a ha
        rcases List.mem_cons.mp ha with h | h
        · exact h ▸ List.mem_cons_self _ _
        · exact List.mem_cons_of_mem _ (hsub a h)
      · exact List.Nodup.cons hnotacc hnd

theorem dedupNoLimit_ids_nodup (xs : List Exercise) :
    ((dedupNoLimit xs).map (fun e => e.id)).Nodup :=
  dedupAllAux_ids_nodup xs [] [] (by simp) (by simp)

theorem dedupAux_mem_first (count : Nat) (l : List Exercise) :
    ∀ (seen : List (Option String)) (acc : List Exercise),
      ∀ ex ∈ dedupAux count seen acc l,
        ex ∈ acc ∨ (ex.id ∉ seen ∧ l.find? (fun e => e.id == ex.id) = some ex) := by
  induction l with
  | nil =>
    intro seen acc ex hex
    rw [dedupAux, List.mem_reverse] at hex
    exact Or.inl hex
  | cons ex0 rest ih =>
    intro seen acc ex hex
    rw [dedupAux] at hex
    by_cases hmem : ex0.id ∈ seen
    · rw [if_pos hmem] at hex
      rcases ih seen acc ex hex with h | ⟨hns, hfind⟩
      · exact Or.inl h
      · refine Or.inr ⟨hns, ?_⟩
        rw [List.find?_cons_of_neg, hfind]
        simp only [beq_iff_eq]
        intro heq
        exact hns (heq ▸ hmem)
    · rw [if_neg hmem] at hex
      by_cases hlen : acc.length + 1 ≥ count
      · rw [if_pos hlen, List.mem_reverse, List.mem_cons] at hex
        rcases hex with h | h
        · refine Or.inr ⟨h ▸ hmem, ?_⟩
          rw [h, List.find?_cons_of_pos]
          simp
        · exact Or.inl h
      · rw [if_neg hlen] at hex
        rcases ih (ex0.id :: seen) (ex0 :: acc) ex hex with h | ⟨hns, hfind⟩
        · rcases List.mem_cons.mp h with h | h
          · refine Or.inr ⟨h ▸ hmem, ?_⟩
            rw [h, List.find?_cons_of_pos]
            simp
          · exact Or.inl h
        · have hne : ex.id ≠ ex0.id := fun heq => hns (heq ▸ List.mem_cons_self _ _)
          refine Or.inr ⟨fun hin => hns (List.mem_cons_of_mem _ hin), ?_⟩
          rw [List.find?_cons_of_neg, hfind]
          simp only [beq_iff_eq]
          exact fun heq => hne heq.symm

theorem dedupLimit_mem_first (count : Nat) (xs : List Exercise) :
    ∀ ex ∈ dedupLimit count xs, xs.find? (fun e => e.id == ex.id) = some ex := by
  intro ex hex
  rcases dedupAux_mem_first count xs [] [] ex hex with h | ⟨_, hfind⟩
  · simp at h
  · exact hfind

theorem dedupAux_length_le (count : Nat) (l : List Exercise) :
    ∀ (seen : List (Option String)) (acc : List Exercise),
      (dedupAux count seen acc l).length ≤ max (acc.length + 1) count := by
  induction l with
  | nil =>
    intro seen acc
    simp only [dedupAux, List.length_reverse]
    exact le_max_of_le_left (Nat.le_succ _)
  | cons ex rest ih =>
    intro seen acc
    rw [dedupAux]
    by_cases hmem : ex.id ∈ seen
    · rw [if_pos hmem]
      exact ih seen acc
    · rw [if_neg hmem]
      by_cases hlen : acc.length + 1 ≥ count
      · rw [if_pos hlen]
        simp only [List.length_reverse, List.length_cons]
        exact le_max_left _ _
      · rw [if_neg hlen]
        refine (ih (ex.id :: seen) (ex :: acc)).trans ?_
        have hlt : acc.length + 1 < count := Nat.lt_of_not_le hlen
        simp only [List.length_cons]
        exact max_le (le_max_of_le_right (Nat.succ_le_of_lt hlt)) (le_max_right _ _)

theorem dedupLimit_length_le (count : Nat) (xs : List Exercise) :
    (dedupLimit count xs).length ≤ max 1 count := by
  simpa [dedupLimit] using dedupAux_length_le count xs [] []

theorem nodup_map_countP_le_one {α β : Type} [DecidableEq β] (f : α → β) (b : β) :
    ∀ l : List α, (l.map f).Nodup → l.countP (fun a => decide (f a = b)) ≤ 1 := by
  intro l
  induction l with
  | nil => intro _; simp
  | cons a t ih =>
    intro hnd
    rw [List.map_cons, List.nodup_cons] at hnd
    by_cases hb : f a = b
    · rw [List.countP_cons_of_pos _ _ (by simpa using hb)]
      have hz : t.countP (fun x => decide (f x = b)) = 0 := by
        rw [List.countP_eq_zero]
        intro x hx
        simp only [decide_eq_true_eq]
        intro hxb
        exact hnd.1 (List.mem_map.mpr ⟨x, hx, by rw [hxb, hb]⟩)
      omega
    · rw [List.countP_cons_of_neg _ _ (by simpa using hb)]
      exact ih hnd.2

theorem dedupAllAux_eq_of_nodup (l : List Exercise) :
    ∀ (seen : List (Option String)) (acc : List Exercise),
      (∀ ex ∈ l, ex.id ∉ seen) → (l.map (fun e => e.id)).Nodup →
      dedupAllAux seen acc l = acc.reverse ++ l := by
  induction l with
  | nil => intro seen acc _ _; simp [dedupAllAux]
  | cons ex rest ih =>
    intro seen acc hns hnd
    rw [List.map_cons, List.nodup_cons] at hnd
    rw [dedupAllAux, if_neg (hns ex (List.mem_cons_self _ _))]
    have h := ih (ex.id :: seen) (ex :: acc) ?_ hnd.2
    · rw [h, List.reverse_cons, List.append_assoc]
      rfl
    · intro e he
      rw [List.mem_cons]
      rintro (h | h)
      · exact hnd.1 (h ▸ List.mem_map.mpr ⟨e, he, rfl⟩)
      · exact hns e (List.mem_cons_of_mem _ he) h

theorem dedupNoLimit_eq_of_nodup (xs : List Exercise)
    (hnd : (xs.map (fun e => e.id)).Nodup) : dedupNoLimit xs = xs := by
  simpa [dedupNoLimit] using dedupAllAux_eq_of_nodup xs [] [] (by simp) hnd

theorem mem_filterEquipment_matches {equipment : String}
    (he : ¬ equipIsAnyOrAll equipment) {l : List Exercise} {ex : Exercise}
    (h : ex ∈ filterEquipment equipment l) : matchesEquip equipment ex = true := by
  rw [filterEquipment, if_neg he] at h
  exact (List.mem_filter.mp h).2

theorem filterEquipment_nil (equipment : String) : filterEquipment equipment [] = [] := by
  rw [filterEquipment]
  split <;> rfl

theorem mem_fetchFiltered_matches {equipment : String}
    (he : ¬ equipIsAnyOrAll equipment) {fetch : String → Option (List Exercise)}
    {endpoint : String} {k : Nat} {ex : Exercise}
    (h : ex ∈ fetchFiltered fetch equipment endpoint k) : matchesEquip equipment ex = true := by
  rw [fetchFiltered] at h
  cases hf : fetch endpoint with
  | none => simp only [hf] at h; simp at h
  | some data =>
    simp only [hf] at h
    by_cases hd : data = []
    · rw [if_pos hd] at h; simp at h
    · rw [if_neg hd] at h
      exact mem_filterEquipment_matches he (List.take_subset _ _ h)

theorem mem_partsContribution_matches {equipment : String}
    (he : ¬ equipIsAnyOrAll equipment) {fetch : String → Option (List Exercise)}
    {parts : List String} {k : Nat} {ex : Exercise}
    (h : ex ∈ partsContribution fetch equipment parts k) : matchesEquip equipment ex = true := by
  rw [partsContribution] at h
  rcases List.mem_flatten.mp h with ⟨l, hl, hexl⟩
  rcases List.mem_map.mp hl with ⟨bp, _, rfl⟩
  exact mem_fetchFiltered_matches he hexl

theorem mem_personalized_workout_exercises_matches {equipment : String}
    (he : ¬ equipIsAnyOrAll equipment) {fetch : String → Option (List Exercise)}
    {workout_type : String} {exercise_count : Nat} {ex : Exercise}
    (h : ex ∈ personalized_workout_exercises fetch workout_type equipment exercise_count) :
    matchesEquip equipment ex = true := by
  rw [personalized_workout_exercises] at h
  split at h
  · exact mem_fetchFiltered_matches he h
  · split at h
    · exact mem_partsContribution_matches he h
    · split at h
      · split at h
        · simp at h
        · exact mem_filterEquipment_matches he (List.take_subset _ _ h)
      · split at h
        · exact mem_partsContribution_matches he h
        · split at h
          · exact mem_fetchFiltered_matches he h
          · exact mem_fetchFiltered_matches he h

theorem mem_personalized_with_fallback_matches {equipment : String}
    (he : ¬ equipIsAnyOrAll equipment) {fetch : String → Option (List Exercise)}
    {workout_type : String} {exercise_count : Nat} {ex : Exercise}
    (hpre : personalized_workout_exercises fetch workout_type equipment exercise_count ≠ [])
    (h : ex ∈ personalized_with_fallback fetch workout_type equipment exercise_count) :
    matchesEquip equipment ex = true := by
  rw [personalized_with_fallback, if_neg (fun hand => hpre hand.1)] at h
  exact mem_personalized_workout_exercises_matches he h

theorem mem_create_personalized_workout_selection_matches {equipment : String}
    (he : ¬ equipIsAnyOrAll equipment) {fetch : String → Option (List Exercise)}
    {workout_type fitness_level : String} {duration_minutes : Nat} {ex : Exercise}
    (hpre : personalized_workout_exercises fetch workout_type equipment
      (exercise_count_for duration_minutes fitness_level) ≠ [])
    (h : ex ∈ create_personalized_workout_selection fetch workout_type equipment
      duration_minutes fitness_level) :
    matchesEquip equipment ex = true := by
  rw [create_personalized_workout_selection] at h
  exact mem_personalized_with_fallback_matches he hpre ((dedupLimit_sublist _ _).subset h)

theorem mem_create_circuit_training_selection_matches {equipment : String}
    (he : ¬ equipIsAnyOrAll equipment) {fetch : String → Option (List Exercise)}
    {target_areas : String} {exercises_per_round : Nat} {ex : Exercise}
    (h : ex ∈ create_circuit_training_selection fetch target_areas equipment
      exercises_per_round) :
    matchesEquip equipment ex = true := by
  rw [create_circuit_training_selection] at h
  have h2 := (dedupLimit_sublist _ _).subset h
  rw [create_circuit_training_exercises] at h2
  split at h2
  · exact mem_partsContribution_matches he h2
  · split at h2
    · exact mem_partsContribution_matches he h2
    · split at h2
      · exact mem_partsContribution_matches he h2
      · split at h2
        · exact mem_fetchFiltered_matches he h2
        · split at h2
          · exact mem_fetchFiltered_matches he h2
          · simp at h2

theorem mem_get_beginner_workout_plan_selection_matches {equipment : String}
    (he : ¬ equipIsAnyOrAll equipment) {fetch : String → Option (List Exercise)}
    {focus_area : String} {ex : Exercise}
    (h : ex ∈ get_beginner_workout_plan_selection fetch focus_area equipment) :
    matchesEquip equipment ex = true := by
  rw [get_beginner_workout_plan_selection] at h
  have h2 := (dedupNoLimit_sublist _).subset h
  rw [get_beginner_workout_plan_exercises] at h2
  split at h2
  · exact mem_partsContribution_matches he h2
  · split at h2
    · exact mem_partsContribution_matches he h2
    · split at h2
      · exact mem_partsContribution_matches he h2
      · split at h2
        · exact mem_fetchFiltered_matches he h2
        · simp at h2

theorem mem_get_workout_by_difficulty_selection_matches {equipment : String}
    (he : ¬ equipIsAnyOrAll equipment) {fetch : String → Option (List Exercise)}
    {difficulty body_focus : String} {ex : Exercise}
    (h : ex ∈ get_workout_by_difficulty_selection fetch difficulty body_focus equipment) :
    matchesEquip equipment ex = true := by
  rw [get_workout_by_difficulty_selection] at h
  have h2 := (dedupLimit_sublist _ _).subset h
  rw [get_workout_by_difficulty_exercises] at h2
  split at h2
  · exact mem_partsContribution_matches he h2
  · exact mem_fetchFiltered_matches he h2

theorem mem_create_hiit_workout_selection_matches {equipment : String}
    (he : ¬ equipIsAnyOrAll equipment) {fetch : String → Option (List Exercise)}
    {ex : Exercise}
    (h : ex ∈ create_hiit_workout_selection fetch equipment) :
    matchesEquip equipment ex = true := by
  rw [create_hiit_workout_selection] at h
  have h2 := (dedupLimit_sublist _ _).subset h
  rw [create_hiit_workout_exercises] at h2
  rcases List.mem_append.mp h2 with h3 | h3
  · exact mem_fetchFiltered_matches he h3
  · exact mem_partsContribution_matches he h3

theorem make_api_request_hit {α : Type} (net : NetOutcome α) (endpoint : String)
    (params : List (String × String)) (cache : List (String × α)) (v : α)
    (h : dictGet (cacheKey endpoint params) cache = some v) :
    make_api_request net endpoint params true cache = (some v, cache) := by
  simp [make_api_request, h]

theorem make_api_request_miss_success {α : Type} (endpoint : String)
    (params : List (String × String)) (cache : List (String × α)) (d : α)
    (h : dictGet (cacheKey endpoint params) cache = none) :
    make_api_request (NetOutcome.success d) endpoint params true cache
      = (some d, dictSet (cacheKey endpoint params) d cache) := by
  simp [make_api_request, h]

theorem make_api_request_nocache_success {α : Type} (endpoint : String)
    (params : List (String × String)) (cache : List (String × α)) (d : α) :
    make_api_request (NetOutcome.success d) endpoint params false cache = (some d, cache) := by
  simp [make_api_request]

theorem make_api_request_error {α : Type} (net : NetOutcome α) (endpoint : String)
    (params : List (String × String)) (use_cache : Bool) (cache : List (String × α))
    (hmiss : dictGet (cacheKey endpoint params) cache = none)
    (herr : (∃ code, net = NetOutcome.statusError code) ∨ net = NetOutcome.exnError) :
    make_api_request net endpoint params use_cache cache = (none, cache) := by
  rcases herr with ⟨code, rfl⟩ | rfl <;> simp [make_api_request, hmiss]

theorem make_api_request_snd_statusError {α : Type} (code : Nat) (endpoint : String)
    (params : List (String × String)) (use_cache : Bool) (cache : List (String × α)) :
    (make_api_request (NetOutcome.statusError code) endpoint params use_cache cache).2
      = cache := by
  rw [make_api_request]
  split
  · rfl
  · rfl

theorem make_api_request_snd_exnError {α : Type} (endpoint : String)
    (params : List (String × String)) (use_cache : Bool) (cache : List (String × α)) :
    (make_api_request (NetOutcome.exnError) endpoint params use_cache cache).2 = cache := by
  rw [make_api_request]
  split
  · rfl
  · rfl

theorem make_api_request_fst_success {α : Type} (d : α) (endpoint : String)
    (params : List (String × String)) (use_cache : Bool) (cache : List (String × α)) :
    ((make_api_request (NetOutcome.success d) endpoint params use_cache cache).1).isSome
      = true := by
  rw [make_api_request]
  split
  · next hc =>
    simp only [Bool.and_eq_true] at hc
    exact hc.2
  · rfl

theorem pyEnumerate_length {α : Type} (n : Nat) (l : List α) :
    (pyEnumerate n l).length = l.length := by
  induction l generalizing n with
  | nil => rfl
  | cons a t ih => simp [pyEnumerate, ih]

theorem take_ne_nil_of_pos {α : Type} {l : List α} {n : Nat} (hn : 0 < n) (hl : l ≠ []) :
    l.take n ≠ [] := by
  cases l with
  | nil => exact absurd rfl hl
  | cons a t =>
    cases n with
    | zero => exact absurd hn (by simp)
    | succ m => simp [List.take]

theorem personalized_workout_exercises_chest (fetch : String → Option (List Exercise))
    (equipment : String) (exercise_count : Nat) :
    personalized_workout_exercises fetch "chest" equipment exercise_count
      = fetchFiltered fetch equipment (bodyPartEndpoint "chest") exercise_count := by
  have h : pyIn "chest" (pyLower "chest") = true := by decide
  rw [personalized_workout_exercises]
  simp [h]

theorem personalized_chest_nonempty (fetch : String → Option (List Exercise))
    (exercise_count : Nat) (hpos : 0 < exercise_count)
    (hch : filterEquipment "dumbbell" ((fetch (bodyPartEndpoint "chest")).getD []) ≠ []) :
    personalized_workout_exercises fetch "chest" "dumbbell" exercise_count ≠ [] := by
  rw [personalized_workout_exercises_chest, fetchFiltered]
  cases hf : fetch (bodyPartEndpoint "chest") with
  | none => rw [hf] at hch; simp [filterEquipment_nil] at hch
  | some data =>
    rw [hf] at hch
    simp only [Option.getD] at hch
    by_cases hd : data = []
    · rw [hd] at hch
      simp [filterEquipment_nil] at hch
    · simp only [hf]
      rw [if_neg hd]
      exact take_ne_nil_of_pos hpos hch

/-- Claim C1, amended: when the equipment argument is not any/all
case-insensitively, every record selected by create_circuit_training,
get_beginner_workout_plan, get_workout_by_difficulty and create_hiit_workout
has an equipment field containing the argument as a case-insensitive
substring, and the same holds for create_personalized_workout whenever its
body-part phase selected at least one record (the equipment-endpoint fallback
appends fetched records unfiltered); when the equipment argument is any/all,
the filtering step returns the fetched records unchanged. -/
theorem builders_equipment_filtering (fetch : String → Option (List Exercise))
    (equipment equipment2 workout_type target_areas focus_area difficulty body_focus
      fitness_level : String) (duration_minutes exercises_per_round : Nat)
    (l : List Exercise) :
    (¬ equipIsAnyOrAll equipment →
      (∀ ex ∈ create_circuit_training_selection fetch target_areas equipment
          exercises_per_round, matchesEquip equipment ex = true) ∧
      (∀ ex ∈ get_beginner_workout_plan_selection fetch focus_area equipment,
        matchesEquip equipment ex = true) ∧
      (∀ ex ∈ get_workout_by_difficulty_selection fetch difficulty body_focus equipment,
        matchesEquip equipment ex = true) ∧
      (∀ ex ∈ create_hiit_workout_selection fetch equipment,
        matchesEquip equipment ex = true) ∧
      (personalized_workout_exercises fetch workout_type equipment
          (exercise_count_for duration_minutes fitness_level) ≠ [] →
        ∀ ex ∈ create_personalized_workout_selection fetch workout_type equipment
          duration_minutes fitness_level, matchesEquip equipment ex = true)) ∧
    (equipIsAnyOrAll equipment2 → filterEquipment equipment2 l = l) := by
  constructor
  · intro he
    exact ⟨fun ex h => mem_create_circuit_training_selection_matches he h,
      fun ex h => mem_get_beginner_workout_plan_selection_matches he h,
      fun ex h => mem_get_workout_by_difficulty_selection_matches he h,
      fun ex h => mem_create_hiit_workout_selection_matches he h,
      fun hpre ex h => mem_create_personalized_workout_selection_matches he hpre h⟩
  · intro he2
    rw [filterEquipment, if_pos he2]

/-- Claim C1 as frozen is false: with the specific equipment argument
dumbbell, create_personalized_workout falls back to the equipment endpoint,
and the record it then renders has equipment field barbell, which does not
contain dumbbell. -/
theorem personalized_fallback_unfiltered :
    ¬ equipIsAnyOrAll "dumbbell" ∧
    create_personalized_workout_selection fetchFallbackOnly "chest" "dumbbell" 30 "beginner"
      = [exBarbell] ∧
    matchesEquip "dumbbell" exBarbell = false := by
  refine ⟨by decide, by decide, by decide⟩

/-- Closed check of builders_equipment_filtering at a concrete upstream. -/
theorem builders_equipment_filtering_check :
    matchesEquip "dumbbell" exDumbbell = true ∧
    filterEquipment "any" [exBarbell] = [exBarbell] := by
  constructor
  · exact ((builders_equipment_filtering fetchChestOnly "dumbbell" "any" "chest" "core"
      "core" "beginner" "chest" "beginner" 15 5 [exBarbell]).1 (by decide)).2.2.2.2
      (by decide) exDumbbell (by decide)
  · exact (builders_equipment_filtering fetchChestOnly "dumbbell" "any" "chest" "core"
      "core" "beginner" "chest" "beginner" 15 5 [exBarbell]).2 (by decide)

/-- Claim C2: the dedup loop of the workout builders yields pairwise-distinct
identifiers, keeps the records in input order, and each survivor is the first
input record bearing its identifier. -/
theorem dedup_unique_first_seen (count : Nat) (xs : List Exercise) :
    ((dedupLimit count xs).map (fun e => e.id)).Nodup ∧
    List.Sublist (dedupLimit count xs) xs ∧
    ∀ ex ∈ dedupLimit count xs, xs.find? (fun e => e.id == ex.id) = some ex :=
  ⟨dedupLimit_ids_nodup count xs, dedupLimit_sublist count xs, dedupLimit_mem_first count xs⟩

/-- Closed check of dedup_unique_first_seen on a list with a duplicated id. -/
theorem dedup_unique_first_seen_check :
    [exDupA, exDupB, exDumbbell].find? (fun e => e.id == exDupA.id) = some exDupA :=
  (dedup_unique_first_seen 5 [exDupA, exDupB, exDumbbell]).2.2 exDupA (by decide)

/-- Claim C3: with caching on, a hit returns the stored payload, a miss with a
successful response stores the fetched payload under the endpoint+params key,
and a repeated call with the same endpoint and params returns the payload the
first successful call returned, whatever the network does in between. -/
theorem make_api_request_cache_consistency {α : Type} (endpoint : String)
    (params : List (String × String)) :
    (∀ (net : NetOutcome α) (v : α) (cache : List (String × α)),
      dictGet (cacheKey endpoint params) cache = some v →
      make_api_request net endpoint params true cache = (some v, cache)) ∧
    (∀ (d : α) (cache : List (String × α)),
      dictGet (cacheKey endpoint params) cache = none →
      make_api_request (NetOutcome.success d) endpoint params true cache
        = (some d, dictSet (cacheKey endpoint params) d cache)) ∧
    (∀ (net1 net2 : NetOutcome α) (cache : List (String × α)) (p : α),
      (make_api_request net1 endpoint params true cache).1 = some p →
      (make_api_request net2 endpoint params true
        (make_api_request net1 endpoint params true cache).2).1 = some p) := by
  refine ⟨fun net v cache h => make_api_request_hit net endpoint params cache v h,
    fun d cache h => make_api_request_miss_success endpoint params cache d h, ?_⟩
  intro net1 net2 cache p h1
  cases hv : dictGet (cacheKey endpoint params) cache with
  | some v =>
    rw [make_api_request_hit net1 endpoint params cache v hv] at h1 ⊢
    rw [make_api_request_hit net2 endpoint params cache v hv]
    exact h1
  | none =>
    cases net1 with
    | success d =>
      rw [make_api_request_miss_success endpoint params cache d hv] at h1 ⊢
      have hv2 : dictGet (cacheKey endpoint params)
          (dictSet (cacheKey endpoint params) d cache) = some d := by
        simp [dictGet, dictSet]
      rw [make_api_request_hit net2 endpoint params _ d hv2]
      exact h1
    | statusError code =>
      rw [make_api_request_error _ endpoint params true cache hv (Or.inl ⟨code, rfl⟩)] at h1
      simp at h1
    | exnError =>
      rw [make_api_request_error _ endpoint params true cache hv (Or.inr rfl)] at h1
      simp at h1

/-- Closed check of make_api_request_cache_consistency at a concrete miss. -/
theorem make_api_request_cache_consistency_check :
    make_api_request (NetOutcome.success 7) "/exercises" [] true ([] : List (String × Nat))
      = (some 7, dictSet (cacheKey "/exercises" []) 7 []) :=
  (make_api_request_cache_consistency "/exercises" []).2.1 7 [] rfl

/-- Claim C4: on a cache miss, a transport error or a non-success status makes
make_api_request return the failure indicator none and leave the cache
unchanged. -/
theorem make_api_request_error_leaves_cache {α : Type} (net : NetOutcome α)
    (endpoint : String) (params : List (String × String)) (use_cache : Bool)
    (cache : List (String × α))
    (hmiss : dictGet (cacheKey endpoint params) cache = none)
    (herr : (∃ code, net = NetOutcome.statusError code) ∨ net = NetOutcome.exnError) :
    make_api_request net endpoint params use_cache cache = (none, cache) :=
  make_api_request_error net endpoint params use_cache cache hmiss herr

/-- Closed check of make_api_request_error_leaves_cache on a 404. -/
theorem make_api_request_error_leaves_cache_check :
    make_api_request (NetOutcome.statusError 404 : NetOutcome Nat)
      "/exercises/bodyPartList" [] true [] = (none, []) :=
  make_api_request_error_leaves_cache _ "/exercises/bodyPartList" [] true [] rfl
    (Or.inl ⟨404, rfl⟩)

/-- Claim C5: a falsy fetch result for an exercise id yields the documented
not-found messages; the embedded functions are total, so no exception can
be raised. -/
theorem get_exercise_by_id_not_found (exercise_id : String) :
    get_exercise_by_id none exercise_id
      = "❌ Unable to fetch exercise with ID: " ++ exercise_id
        ++ ". Please verify the ID is correct." ∧
    format_exercise_detail none = "Exercise not found." :=
  ⟨rfl, rfl⟩

/-- Claim C6: fetching body part chest with equipment dumbbell and an
exercise count of 3 (duration 15, beginner) returns at most 3 records, each
with dumbbell in its equipment field, whenever the chest query has a
dumbbell match. -/
theorem chest_dumbbell_scenario (fetch : String → Option (List Exercise))
    (hch : filterEquipment "dumbbell" ((fetch (bodyPartEndpoint "chest")).getD []) ≠ []) :
    (create_personalized_workout_selection fetch "chest" "dumbbell" 15 "beginner").length
      ≤ 3 ∧
    ∀ ex ∈ create_personalized_workout_selection fetch "chest" "dumbbell" 15 "beginner",
      matchesEquip "dumbbell" ex = true := by
  have hc3 : exercise_count_for 15 "beginner" = 3 := by decide
  constructor
  · have h := dedupLimit_length_le (exercise_count_for 15 "beginner")
      (personalized_with_fallback fetch "chest" "dumbbell" (exercise_count_for 15 "beginner"))
    rw [hc3] at h
    simpa [create_personalized_workout_selection, hc3] using h
  · intro ex hex
    refine mem_create_personalized_workout_selection_matches (by decide) ?_ hex
    exact personalized_chest_nonempty fetch _ (by rw [hc3]; norm_num) hch

/-- Closed check of chest_dumbbell_scenario at a concrete upstream. -/
theorem chest_dumbbell_scenario_check :
    (create_personalized_workout_selection fetchChestOnly "chest" "dumbbell" 15
      "beginner").length ≤ 3 ∧
    ∀ ex ∈ create_personalized_workout_selection fetchChestOnly "chest" "dumbbell" 15
      "beginner", matchesEquip "dumbbell" ex = true :=
  chest_dumbbell_scenario fetchChestOnly (by decide)

/-- Claim C7: format_exercise_list, format_exercise_detail and
format_workout_plan are deterministic functions of their arguments, so
rendering the same records twice yields byte-identical text. -/
theorem formatters_deterministic (exercises : List Exercise) (limit : Nat)
    (show_gif : Bool) (exercise : Option Exercise) (workout_type equipment : String)
    (duration : Nat) :
    format_exercise_list exercises limit show_gif
      = format_exercise_list exercises limit show_gif ∧
    format_exercise_detail exercise = format_exercise_detail exercise ∧
    format_workout_plan exercises workout_type equipment duration
      = format_workout_plan exercises workout_type equipment duration :=
  ⟨rfl, rfl, rfl⟩

/-- Claim C8: a failed call leaves the cache unchanged; any cache change comes
from a successful response whose payload is both returned and stored, so the
failure indicator none is never inserted; and after a failed miss, a later
call with the same endpoint and params can still fetch, succeed and cache. -/
theorem make_api_request_cache_success_only {α : Type} (net : NetOutcome α)
    (endpoint : String) (params : List (String × String)) (use_cache : Bool)
    (cache : List (String × α)) :
    ((make_api_request net endpoint params use_cache cache).1 = none →
      (make_api_request net endpoint params use_cache cache).2 = cache) ∧
    (∀ k, dictGet k (make_api_request net endpoint params use_cache cache).2
        = dictGet k cache ∨
      ∃ d, net = NetOutcome.success d ∧
        (make_api_request net endpoint params use_cache cache).1 = some d ∧
        dictGet k (make_api_request net endpoint params use_cache cache).2 = some d) ∧
    (∀ d : α, dictGet (cacheKey endpoint params) cache = none →
      make_api_request (NetOutcome.exnError) endpoint params true cache = (none, cache) ∧
      make_api_request (NetOutcome.success d) endpoint params true cache
        = (some d, dictSet (cacheKey endpoint params) d cache)) := by
  refine ⟨?_, ?_, ?_⟩
  · intro h1
    cases net with
    | success d =>
      have h2 := make_api_request_fst_success d endpoint params use_cache cache
      rw [h1] at h2
      simp at h2
    | statusError code => exact make_api_request_snd_statusError code endpoint params use_cache cache
    | exnError => exact make_api_request_snd_exnError endpoint params use_cache cache
  · intro k
    cases net with
    | success d =>
      cases hu : use_cache with
      | false =>
        rw [make_api_request_nocache_success endpoint params cache d]
        exact Or.inl rfl
      | true =>
        cases hv : dictGet (cacheKey endpoint params) cache with
        | some v =>
          rw [make_api_request_hit _ endpoint params cache v hv]
          exact Or.inl rfl
        | none =>
          rw [make_api_request_miss_success endpoint params cache d hv]
          by_cases hk : cacheKey endpoint params = k
          · refine Or.inr ⟨d, rfl, rfl, ?_⟩
            simp [dictGet, dictSet, hk]
          · refine Or.inl ?_
            simp [dictGet, dictSet, hk]
    | statusError code =>
      rw [make_api_request_snd_statusError code endpoint params use_cache cache]
      exact Or.inl rfl
    | exnError =>
      rw [make_api_request_snd_exnError endpoint params use_cache cache]
      exact Or.inl rfl
  · intro d hmiss
    exact ⟨make_api_request_error _ endpoint params true cache hmiss (Or.inr rfl),
      make_api_request_miss_success endpoint params cache d hmiss⟩

/-- Closed check of make_api_request_cache_success_only: a failed miss then a
successful retry on the same key. -/
theorem make_api_request_cache_success_only_check :
    make_api_request (NetOutcome.exnError : NetOutcome Nat) "/exercises/equipmentList" []
      true [] = (none, []) ∧
    make_api_request (NetOutcome.success 9) "/exercises/equipmentList" [] true
      ([] : List (String × Nat))
      = (some 9, dictSet (cacheKey "/exercises/equipmentList" []) 9 []) :=
  (make_api_request_cache_success_only (NetOutcome.exnError) "/exercises/equipmentList"
    [] true []).2.2 9 rfl

/-- Claim C9: format_exercise_list renders min(limit, length) numbered
entries, appends the more-available suffix exactly when the list is longer
than the limit, and returns the fixed message on an empty list. -/
theorem format_exercise_list_shape (exercises : List Exercise) (limit : Nat)
    (show_gif : Bool) (hne : exercises ≠ []) (_hpos : 0 < limit) :
    (formatEntriesFor exercises limit show_gif).length = min limit exercises.length ∧
    (limit < exercises.length →
      format_exercise_list exercises limit show_gif
        = String.intercalate "\n\n" (formatEntriesFor exercises limit show_gif)
          ++ moreSuffix (exercises.length - limit)) ∧
    (exercises.length ≤ limit →
      format_exercise_list exercises limit show_gif
        = String.intercalate "\n\n" (formatEntriesFor exercises limit show_gif)) ∧
    format_exercise_list ([] : List Exercise) limit show_gif = "No exercises found." := by
  refine ⟨?_, ?_, ?_, rfl⟩
  · rw [formatEntriesFor, List.length_map, pyEnumerate_length, List.length_take]
  · intro hgt
    rw [format_exercise_list, if_neg hne,
      if_pos (show exercises.length > limit from hgt)]
  · intro hle
    rw [format_exercise_list, if_neg hne,
      if_neg (show ¬ exercises.length > limit from Nat.not_lt.mpr hle)]

/-- Closed check of format_exercise_list_shape on a three-element list with
limit two. -/
theorem format_exercise_list_shape_check :
    (formatEntriesFor [exDumbbell, exBarbell, exDupA] 2 true).length
      = min 2 [exDumbbell, exBarbell, exDupA].length :=
  (format_exercise_list_shape [exDumbbell, exBarbell, exDupA] 2 true (by decide)
    (by decide)).1

/-- Claim C10: a record lacking an id is keyed by the identifier none, so at
most one id-less record survives either dedup loop; the beginner loop applies
no truncation (distinct ids pass through unchanged), while the bounded loop
returns at most max 1 count records. -/
theorem dedup_none_ids_and_truncation (xs : List Exercise) (count : Nat) :
    (dedupNoLimit xs).countP (fun ex => decide (ex.id = none)) ≤ 1 ∧
    (dedupLimit count xs).countP (fun ex => decide (ex.id = none)) ≤ 1 ∧
    ((xs.map (fun e => e.id)).Nodup → dedupNoLimit xs = xs) ∧
    (dedupLimit count xs).length ≤ max 1 count := by
  refine ⟨?_, ?_, dedupNoLimit_eq_of_nodup xs, dedupLimit_length_le count xs⟩
  · exact nodup_map_countP_le_one (fun e : Exercise => e.id) none (dedupNoLimit xs)
      (dedupNoLimit_ids_nodup xs)
  · exact nodup_map_countP_le_one (fun e : Exercise => e.id) none (dedupLimit count xs)
      (dedupLimit_ids_nodup count xs)

/-- Closed check of dedup_none_ids_and_truncation: distinct ids pass through
the beginner dedup loop unchanged. -/
theorem dedup_none_ids_and_truncation_check :
    dedupNoLimit [exDumbbell, exBarbell] = [exDumbbell, exBarbell] :=
  (dedup_none_ids_and_truncation [exDumbbell, exBarbell] 1).2.2.1 (by decide)
